import Mathlib

/-!
Verification of the solar power-flow simulation engine.

The development embeds, over exact rationals, the two copies of the
TypeScript engine found in the repository:

* `SolarSim.calculateSystemState` — the refined engine (the copy shipped
  with the mode router's 30% reserve, the 20% emergency grid charge, the
  full-battery clamp and the grid netting step);
* `SolarSim.WebUI.calculateSystemState` — the simpler engine from the
  web_ui folder (70% grid threshold, no emergency charge, no export
  redirection, no netting).

The engine's mutable locals are modelled as small records threaded through
one definition per stage (mode router, controller output, net-flow/clamp,
grid netting), in the order the source mutates them.  The host's battery
energy integrator (the tick loop of the App component) is modelled by
`integratorStep` / `runTicks` / `reclampBatteryLevel`.
-/

namespace SolarSim

/-- Operating mode of the system: off-grid, on-grid or hybrid. -/
inductive SystemMode where
  | OFF_GRID
  | ON_GRID
  | HYBRID
deriving DecidableEq

/-- User-editable configuration of the installation. -/
structure SystemConfig where
  numPanels : ℚ
  panelWattage : ℚ
  panelVoltage : ℚ
  wireGaugeMm2 : ℚ
  wireLengthFt : ℚ
  batteryCapacityAh : ℚ
  batteryVoltage : ℚ
  batteryCRating : ℚ
  inverterEfficiency : ℚ
  controllerEfficiency : ℚ
deriving DecidableEq

/-- Default configuration shipped with the application. -/
def DEFAULT_CONFIG : SystemConfig :=
  { numPanels := 2
    panelWattage := 250
    panelVoltage := 25
    wireGaugeMm2 := 10
    wireLengthFt := 20
    batteryCapacityAh := 300
    batteryVoltage := 24
    batteryCRating := 20
    inverterEfficiency := 8 / 10
    controllerEfficiency := 9 / 10 }

/-- Result of evaluating one wire segment. -/
structure WireSegmentStats where
  current : ℚ
  powerLoss : ℚ
  voltageDrop : ℚ
  isSafe : Bool
deriving DecidableEq

/-- Legacy global wire analysis kept in the snapshot. -/
structure WireAnalysis where
  current : ℚ
  resistance : ℚ
  powerLoss : ℚ
  voltageDrop : ℚ
  voltageDropPercent : ℚ
  isSafe : Bool
  recommendedMm2 : ℚ
  message : String
deriving DecidableEq

/-- The four wire segments reported in the snapshot. -/
structure WireStatsGroup where
  solarToController : WireSegmentStats
  controllerToBattery : WireSegmentStats
  batteryToInverter : WireSegmentStats
  inverterToLoad : WireSegmentStats
deriving DecidableEq

/-- Wire segment loss/safety calculation (`calcWire` in the source):
zero result with a safe flag when power or voltage is non-positive,
otherwise current, resistance, loss, drop and the 5 A per mm2 ampacity
heuristic. -/
def calcWire (power voltage lengthFt gauge : ℚ) : WireSegmentStats :=
  if power ≤ 0 ∨ voltage ≤ 0 then
    { current := 0, powerLoss := 0, voltageDrop := 0, isSafe := true }
  else
    let current := power / voltage
    let lengthM := lengthFt * (3048 / 10000)
    let resistance := (172 / 10000) * lengthM * 2 / gauge
    { current := current
      powerLoss := current ^ 2 * resistance
      voltageDrop := current * resistance
      isSafe := decide (current ≤ gauge * 5) }

/-- Sun intensity after the daylight window gate: forced to 0 when
timeOfDay is outside [9, 16]. -/
def effectiveIntensity (sunIntensity timeOfDay : ℚ) : ℚ :=
  if timeOfDay < 9 ∨ 16 < timeOfDay then 0 else sunIntensity

/-- Solar array output (`solarInput` in the source). -/
def solarInput (config : SystemConfig) (sunIntensity timeOfDay : ℚ) : ℚ :=
  config.numPanels * config.panelWattage * effectiveIntensity sunIntensity timeOfDay

/-- Wire stats of the solar-to-controller leg. -/
def solarStats (config : SystemConfig) (sunIntensity timeOfDay : ℚ) : WireSegmentStats :=
  calcWire (solarInput config sunIntensity timeOfDay) config.panelVoltage
    config.wireLengthFt config.wireGaugeMm2

/-- Power reaching the controller after the solar-leg wire loss. -/
def powerAtController (config : SystemConfig) (sunIntensity timeOfDay : ℚ) : ℚ :=
  max 0 (solarInput config sunIntensity timeOfDay - (solarStats config sunIntensity timeOfDay).powerLoss)

/-- Hard ceiling on battery charging power:
(capacityAh / CRating) * batteryVoltage. -/
def maxChargePower (config : SystemConfig) : ℚ :=
  config.batteryCapacityAh / config.batteryCRating * config.batteryVoltage

/-- Battery bank capacity in watt-hours. -/
def maxWh (config : SystemConfig) : ℚ :=
  config.batteryCapacityAh * config.batteryVoltage

/-- Battery state of charge as a percentage of capacity. -/
def batteryPercent (config : SystemConfig) (currentBatteryLevel : ℚ) : ℚ :=
  currentBatteryLevel / maxWh config * 100

/-- DC power the inverter must draw to serve the AC load. -/
def inverterInput (config : SystemConfig) (acLoad : ℚ) : ℚ :=
  acLoad / config.inverterEfficiency

/-- DC power available after controller losses
(`powerAvailableForCharging` in the source). -/
def powerAvailableForCharging (config : SystemConfig) (sunIntensity timeOfDay : ℚ) : ℚ :=
  powerAtController config sunIntensity timeOfDay * config.controllerEfficiency

/-- Solar power usable at the DC bus for the load
(`solarAvailableForLoad` in the source; same expression as
`powerAvailableForCharging`). -/
def solarAvailableForLoad (config : SystemConfig) (sunIntensity timeOfDay : ℚ) : ℚ :=
  powerAtController config sunIntensity timeOfDay * config.controllerEfficiency

/-- Mutable locals of the routing section of the refined engine. -/
structure RouterVars where
  inverterDrawFromBattery : ℚ
  gridActive : Bool
  gridExport : ℚ
  gridImport : ℚ
  gridChargingPower : ℚ
deriving DecidableEq

/-- Mode router (stage 5 of the refined engine): decides, per mode, how
battery, solar and grid cooperate to serve the load, including the HYBRID
30% reserve and the 20% emergency grid charge. -/
def modeRouter (config : SystemConfig) (sunIntensity acLoad currentBatteryLevel timeOfDay : ℚ)
    (systemMode : SystemMode) : RouterVars :=
  match systemMode with
  | .OFF_GRID =>
      { inverterDrawFromBattery := inverterInput config acLoad
        gridActive := false, gridExport := 0, gridImport := 0, gridChargingPower := 0 }
  | .ON_GRID =>
      let solarPowerAC := solarInput config sunIntensity timeOfDay * config.inverterEfficiency
      if acLoad ≤ solarPowerAC then
        { inverterDrawFromBattery := 0, gridActive := true
          gridExport := solarPowerAC - acLoad, gridImport := 0, gridChargingPower := 0 }
      else
        { inverterDrawFromBattery := 0, gridActive := true
          gridExport := 0, gridImport := acLoad - solarPowerAC, gridChargingPower := 0 }
  | .HYBRID =>
      let percent := batteryPercent config currentBatteryLevel
      if inverterInput config acLoad ≤ solarAvailableForLoad config sunIntensity timeOfDay then
        { inverterDrawFromBattery := inverterInput config acLoad
          gridActive := true, gridExport := 0, gridImport := 0, gridChargingPower := 0 }
      else if 30 < percent then
        { inverterDrawFromBattery := inverterInput config acLoad
          gridActive := true, gridExport := 0, gridImport := 0, gridChargingPower := 0 }
      else if percent < 20 ∧ effectiveIntensity sunIntensity timeOfDay < 1 / 10 then
        let gcp := maxChargePower config / config.inverterEfficiency
        { inverterDrawFromBattery := 0, gridActive := true
          gridExport := 0, gridImport := acLoad + gcp, gridChargingPower := gcp }
      else
        { inverterDrawFromBattery := 0, gridActive := true
          gridExport := 0, gridImport := acLoad, gridChargingPower := 0 }

/-- Mutable locals after the controller-output section. -/
structure ControllerVars where
  inverterDrawFromBattery : ℚ
  gridActive : Bool
  gridExport : ℚ
  gridImport : ℚ
  gridChargingPower : ℚ
  powerToBattery : ℚ
  wastedPower : ℚ
deriving DecidableEq

/-- Controller output (stage 6 of the refined engine): caps the solar
charge power against the total demand; in HYBRID the excess is redirected
to export, off-grid it is wasted, on-grid the controller outputs nothing. -/
def controllerStage (config : SystemConfig) (sunIntensity timeOfDay : ℚ)
    (systemMode : SystemMode) (r : RouterVars) : ControllerVars :=
  let avail := powerAvailableForCharging config sunIntensity timeOfDay
  let totalDemand := maxChargePower config + r.inverterDrawFromBattery
  match systemMode with
  | .ON_GRID =>
      { inverterDrawFromBattery := r.inverterDrawFromBattery, gridActive := r.gridActive
        gridExport := r.gridExport, gridImport := r.gridImport
        gridChargingPower := r.gridChargingPower
        powerToBattery := 0, wastedPower := 0 }
  | .HYBRID =>
      if totalDemand < avail then
        let excessDC := avail - totalDemand
        { inverterDrawFromBattery := r.inverterDrawFromBattery + excessDC
          gridActive := true
          gridExport := excessDC * config.inverterEfficiency
          gridImport := r.gridImport
          gridChargingPower := r.gridChargingPower
          powerToBattery := avail, wastedPower := 0 }
      else
        { inverterDrawFromBattery := r.inverterDrawFromBattery, gridActive := r.gridActive
          gridExport := r.gridExport, gridImport := r.gridImport
          gridChargingPower := r.gridChargingPower
          powerToBattery := avail, wastedPower := 0 }
  | .OFF_GRID =>
      if totalDemand < avail then
        { inverterDrawFromBattery := r.inverterDrawFromBattery, gridActive := r.gridActive
          gridExport := r.gridExport, gridImport := r.gridImport
          gridChargingPower := r.gridChargingPower
          powerToBattery := totalDemand, wastedPower := avail - totalDemand }
      else
        { inverterDrawFromBattery := r.inverterDrawFromBattery, gridActive := r.gridActive
          gridExport := r.gridExport, gridImport := r.gridImport
          gridChargingPower := r.gridChargingPower
          powerToBattery := avail, wastedPower := 0 }

/-- Mutable locals after the net-flow / full-battery-clamp section. -/
structure NetVars where
  inverterDrawFromBattery : ℚ
  gridActive : Bool
  gridExport : ℚ
  gridImport : ℚ
  gridChargingPower : ℚ
  wastedPower : ℚ
  netBatteryFlow : ℚ
  effectiveControllerOutput : ℚ
deriving DecidableEq

/-- Net battery flow and full-battery clamp (stage 7 of the refined
engine): the flow is controller output plus the emergency grid charge
minus the inverter draw; if the battery is full and the flow is positive,
HYBRID redirects the excess to export while off-grid wastes it, forcing
the flow to zero. -/
def netFlowStage (config : SystemConfig) (currentBatteryLevel : ℚ)
    (systemMode : SystemMode) (c : ControllerVars) : NetVars :=
  let gridChargeDC := c.gridChargingPower * config.inverterEfficiency
  let net := c.powerToBattery + gridChargeDC - c.inverterDrawFromBattery
  match systemMode with
  | .ON_GRID =>
      { inverterDrawFromBattery := c.inverterDrawFromBattery, gridActive := c.gridActive
        gridExport := c.gridExport, gridImport := c.gridImport
        gridChargingPower := c.gridChargingPower, wastedPower := c.wastedPower
        netBatteryFlow := 0, effectiveControllerOutput := c.powerToBattery }
  | .HYBRID =>
      if 100 ≤ batteryPercent config currentBatteryLevel ∧ 0 < net then
        { inverterDrawFromBattery := c.inverterDrawFromBattery + net
          gridActive := c.gridActive
          gridExport := c.gridExport + net * config.inverterEfficiency
          gridImport := c.gridImport
          gridChargingPower := c.gridChargingPower, wastedPower := c.wastedPower
          netBatteryFlow := 0, effectiveControllerOutput := c.powerToBattery }
      else
        { inverterDrawFromBattery := c.inverterDrawFromBattery, gridActive := c.gridActive
          gridExport := c.gridExport, gridImport := c.gridImport
          gridChargingPower := c.gridChargingPower, wastedPower := c.wastedPower
          netBatteryFlow := net, effectiveControllerOutput := c.powerToBattery }
  | .OFF_GRID =>
      if 100 ≤ batteryPercent config currentBatteryLevel ∧ 0 < net then
        { inverterDrawFromBattery := c.inverterDrawFromBattery, gridActive := c.gridActive
          gridExport := c.gridExport, gridImport := c.gridImport
          gridChargingPower := c.gridChargingPower
          wastedPower := c.wastedPower + net
          netBatteryFlow := 0, effectiveControllerOutput := c.powerToBattery - net }
      else
        { inverterDrawFromBattery := c.inverterDrawFromBattery, gridActive := c.gridActive
          gridExport := c.gridExport, gridImport := c.gridImport
          gridChargingPower := c.gridChargingPower, wastedPower := c.wastedPower
          netBatteryFlow := net, effectiveControllerOutput := c.powerToBattery }

/-- Grid netting: simultaneous import and export are netted out, the
larger absorbs the smaller and the smaller becomes exactly zero. -/
def gridNetting (gridImport gridExport : ℚ) : ℚ × ℚ :=
  if 0 < gridImport ∧ 0 < gridExport then
    if gridExport ≤ gridImport then (gridImport - gridExport, 0)
    else (0, gridExport - gridImport)
  else (gridImport, gridExport)

/-- Pre-clamp net battery flow: the value the net-flow stage computes
before the full-battery clamp is considered. -/
def preClampNetFlow (config : SystemConfig) (sunIntensity acLoad currentBatteryLevel timeOfDay : ℚ)
    (systemMode : SystemMode) : ℚ :=
  let c := controllerStage config sunIntensity timeOfDay systemMode
    (modeRouter config sunIntensity acLoad currentBatteryLevel timeOfDay systemMode)
  c.powerToBattery + c.gridChargingPower * config.inverterEfficiency - c.inverterDrawFromBattery

/-- Instantaneous snapshot returned by the refined engine. -/
structure SystemState where
  sunIntensity : ℚ
  generation : ℚ
  panelVoltage : ℚ
  wireAnalysis : WireAnalysis
  wireStats : WireStatsGroup
  powerAtController : ℚ
  powerToBattery : ℚ
  batteryLevel : ℚ
  batteryPercent : ℚ
  acLoad : ℚ
  inverterInput : ℚ
  netBatteryFlow : ℚ
  gridActive : Bool
  gridExport : ℚ
  gridImport : ℚ
  wastedPower : ℚ
  battToInvPower : ℚ
deriving DecidableEq

/-- The refined power-flow engine (`calculateSystemState` of the copy
with reserve, emergency charging, full-battery clamp and grid netting). -/
def calculateSystemState (sunIntensity acLoad currentBatteryLevel : ℚ)
    (config : SystemConfig) (timeOfDay : ℚ) (systemMode : SystemMode) : SystemState :=
  let sStats := solarStats config sunIntensity timeOfDay
  let r := modeRouter config sunIntensity acLoad currentBatteryLevel timeOfDay systemMode
  let c := controllerStage config sunIntensity timeOfDay systemMode r
  let controllerToBattStats := calcWire c.powerToBattery config.batteryVoltage 5 config.wireGaugeMm2
  let n := netFlowStage config currentBatteryLevel systemMode c
  let netted := gridNetting n.gridImport n.gridExport
  let battToInvPower := if 0 < n.gridChargingPower then n.gridChargingPower else n.inverterDrawFromBattery
  let battToInvStats := calcWire battToInvPower config.batteryVoltage 5 config.wireGaugeMm2
  let invToLoadStats := calcWire acLoad 230 20 (5 / 2)
  { sunIntensity := effectiveIntensity sunIntensity timeOfDay
    generation := solarInput config sunIntensity timeOfDay
    panelVoltage := config.panelVoltage
    wireAnalysis :=
      { current := sStats.current, resistance := 0, powerLoss := sStats.powerLoss
        voltageDrop := sStats.voltageDrop
        voltageDropPercent := sStats.voltageDrop / config.panelVoltage * 100
        isSafe := sStats.isSafe, recommendedMm2 := 0
        message := if sStats.isSafe then "OK" else "WARNING: Wire overheating!" }
    wireStats :=
      { solarToController := sStats, controllerToBattery := controllerToBattStats
        batteryToInverter := battToInvStats, inverterToLoad := invToLoadStats }
    powerAtController := powerAtController config sunIntensity timeOfDay
    powerToBattery := n.effectiveControllerOutput
    batteryLevel := currentBatteryLevel
    batteryPercent := batteryPercent config currentBatteryLevel
    acLoad := acLoad
    inverterInput := inverterInput config acLoad
    netBatteryFlow := n.netBatteryFlow
    gridActive := n.gridActive
    gridExport := netted.2
    gridImport := netted.1
    wastedPower := n.wastedPower
    battToInvPower := battToInvPower }

/-- One tick of the host's battery energy integrator: evaluate the engine
at the previous level, convert the elapsed seconds to accelerated hours
(x10 speed), integrate the net flow and clamp to [0, maxWh]. -/
def integratorStep (config : SystemConfig) (sunIntensity acLoad timeOfDay : ℚ)
    (systemMode : SystemMode) (prevLevel dtSeconds : ℚ) : ℚ :=
  let state := calculateSystemState sunIntensity acLoad prevLevel config timeOfDay systemMode
  let effectiveDtHours := dtSeconds * 10 / 3600
  let energyChange := state.netBatteryFlow * effectiveDtHours
  max 0 (min (prevLevel + energyChange) (maxWh config))

/-- Inputs of one integrator tick. -/
structure TickInput where
  sunIntensity : ℚ
  acLoad : ℚ
  timeOfDay : ℚ
  systemMode : SystemMode
  dtSeconds : ℚ

/-- A sequence of integrator ticks folded over the stored battery energy. -/
def runTicks (config : SystemConfig) (init : ℚ) (ticks : List TickInput) : ℚ :=
  ticks.foldl
    (fun lvl tick =>
      integratorStep config tick.sunIntensity tick.acLoad tick.timeOfDay tick.systemMode lvl
        tick.dtSeconds)
    init

/-- Re-clamp applied by the host when capacity or voltage is edited:
the stored level is cut down to the new maximum. -/
def reclampBatteryLevel (config : SystemConfig) (prevLevel : ℚ) : ℚ :=
  min prevLevel (maxWh config)

namespace WebUI

/-- Routing locals of the simpler web_ui engine copy. -/
structure Route where
  inverterDrawFromBattery : ℚ
  gridActive : Bool
  gridExport : ℚ
  gridImport : ℚ
deriving DecidableEq

/-- Snapshot returned by the simpler web_ui engine copy (it has no
battToInvPower field). -/
structure SystemState where
  sunIntensity : ℚ
  generation : ℚ
  panelVoltage : ℚ
  wireAnalysis : WireAnalysis
  wireStats : WireStatsGroup
  powerAtController : ℚ
  powerToBattery : ℚ
  batteryLevel : ℚ
  batteryPercent : ℚ
  acLoad : ℚ
  inverterInput : ℚ
  netBatteryFlow : ℚ
  gridActive : Bool
  gridExport : ℚ
  gridImport : ℚ
  wastedPower : ℚ
deriving DecidableEq

/-- Battery-charging split of the web_ui engine copy: controller output
is capped at maxChargePower alone (the inverter demand is not part of the
budget), the excess above it is wasted, and ON_GRID outputs nothing. -/
def chargeSplit (config : SystemConfig) (sunIntensity timeOfDay : ℚ)
    (systemMode : SystemMode) : ℚ × ℚ :=
  match systemMode with
  | .ON_GRID => (0, 0)
  | _ =>
      if maxChargePower config < powerAvailableForCharging config sunIntensity timeOfDay then
        (maxChargePower config,
          powerAvailableForCharging config sunIntensity timeOfDay - maxChargePower config)
      else
        (powerAvailableForCharging config sunIntensity timeOfDay, 0)

/-- Mode routing of the web_ui engine copy: OFF_GRID draws the full
inverter demand from the battery; ON_GRID compares AC solar to the load;
HYBRID imports the full load whenever the battery is below 70%. -/
def route (config : SystemConfig) (sunIntensity acLoad currentBatteryLevel timeOfDay : ℚ)
    (systemMode : SystemMode) : Route :=
  match systemMode with
  | .OFF_GRID =>
      { inverterDrawFromBattery := inverterInput config acLoad, gridActive := false
        gridExport := 0, gridImport := 0 }
  | .ON_GRID =>
      if acLoad ≤ solarInput config sunIntensity timeOfDay * config.inverterEfficiency then
        { inverterDrawFromBattery := 0, gridActive := true
          gridExport := solarInput config sunIntensity timeOfDay * config.inverterEfficiency -
            acLoad
          gridImport := 0 }
      else
        { inverterDrawFromBattery := 0, gridActive := true
          gridExport := 0
          gridImport := acLoad -
            solarInput config sunIntensity timeOfDay * config.inverterEfficiency }
  | .HYBRID =>
      if batteryPercent config currentBatteryLevel < 70 then
        { inverterDrawFromBattery := 0, gridActive := true
          gridExport := 0, gridImport := acLoad }
      else
        { inverterDrawFromBattery := inverterInput config acLoad, gridActive := false
          gridExport := 0, gridImport := 0 }

/-- Net battery flow of the web_ui engine copy: zero ON_GRID, otherwise
the actual charge (zero when the battery is full) minus the inverter
draw. -/
def netFlow (config : SystemConfig) (sunIntensity acLoad currentBatteryLevel timeOfDay : ℚ)
    (systemMode : SystemMode) : ℚ :=
  match systemMode with
  | .ON_GRID => 0
  | _ =>
      (if (100 : ℚ) ≤ batteryPercent config currentBatteryLevel then 0
       else (chargeSplit config sunIntensity timeOfDay systemMode).1) -
        (route config sunIntensity acLoad currentBatteryLevel timeOfDay
          systemMode).inverterDrawFromBattery

/-- The simpler engine copy from the web_ui folder: 70% grid threshold in
HYBRID, battery charge capped at maxChargePower alone, no emergency grid
charge, no export redirection and no grid netting. -/
def calculateSystemState (sunIntensity acLoad currentBatteryLevel : ℚ)
    (config : SystemConfig) (timeOfDay : ℚ) (systemMode : SystemMode) : SystemState :=
  let sStats := solarStats config sunIntensity timeOfDay
  let cw := chargeSplit config sunIntensity timeOfDay systemMode
  let r := route config sunIntensity acLoad currentBatteryLevel timeOfDay systemMode
  { sunIntensity := SolarSim.effectiveIntensity sunIntensity timeOfDay
    generation := solarInput config sunIntensity timeOfDay
    panelVoltage := config.panelVoltage
    wireAnalysis :=
      { current := sStats.current, resistance := 0, powerLoss := sStats.powerLoss
        voltageDrop := sStats.voltageDrop
        voltageDropPercent := sStats.voltageDrop / config.panelVoltage * 100
        isSafe := sStats.isSafe, recommendedMm2 := 0
        message := if sStats.isSafe then "OK" else "WARNING: Wire overheating!" }
    wireStats :=
      { solarToController := sStats
        controllerToBattery := calcWire cw.1 config.batteryVoltage 5 config.wireGaugeMm2
        batteryToInverter := calcWire r.inverterDrawFromBattery config.batteryVoltage 5
          config.wireGaugeMm2
        inverterToLoad := calcWire acLoad 230 20 (5 / 2) }
    powerAtController := SolarSim.powerAtController config sunIntensity timeOfDay
    powerToBattery := cw.1
    batteryLevel := currentBatteryLevel
    batteryPercent := SolarSim.batteryPercent config currentBatteryLevel
    acLoad := acLoad
    inverterInput := SolarSim.inverterInput config acLoad
    netBatteryFlow := netFlow config sunIntensity acLoad currentBatteryLevel timeOfDay
      systemMode
    gridActive := r.gridActive
    gridExport := r.gridExport
    gridImport := r.gridImport
    wastedPower := cw.2 }

end WebUI

/-! ### Projection lemmas relating the snapshot to the engine stages -/

theorem state_netBatteryFlow (s a lvl : ℚ) (cfg : SystemConfig) (t : ℚ) (m : SystemMode) :
    (calculateSystemState s a lvl cfg t m).netBatteryFlow =
      (netFlowStage cfg lvl m (controllerStage cfg s t m (modeRouter cfg s a lvl t m))).netBatteryFlow :=
  rfl

theorem state_gridImport (s a lvl : ℚ) (cfg : SystemConfig) (t : ℚ) (m : SystemMode) :
    (calculateSystemState s a lvl cfg t m).gridImport =
      (gridNetting
        (netFlowStage cfg lvl m (controllerStage cfg s t m (modeRouter cfg s a lvl t m))).gridImport
        (netFlowStage cfg lvl m (controllerStage cfg s t m (modeRouter cfg s a lvl t m))).gridExport).1 :=
  rfl

theorem state_gridExport (s a lvl : ℚ) (cfg : SystemConfig) (t : ℚ) (m : SystemMode) :
    (calculateSystemState s a lvl cfg t m).gridExport =
      (gridNetting
        (netFlowStage cfg lvl m (controllerStage cfg s t m (modeRouter cfg s a lvl t m))).gridImport
        (netFlowStage cfg lvl m (controllerStage cfg s t m (modeRouter cfg s a lvl t m))).gridExport).2 :=
  rfl

theorem state_gridActive (s a lvl : ℚ) (cfg : SystemConfig) (t : ℚ) (m : SystemMode) :
    (calculateSystemState s a lvl cfg t m).gridActive =
      (netFlowStage cfg lvl m (controllerStage cfg s t m (modeRouter cfg s a lvl t m))).gridActive :=
  rfl

theorem state_wastedPower (s a lvl : ℚ) (cfg : SystemConfig) (t : ℚ) (m : SystemMode) :
    (calculateSystemState s a lvl cfg t m).wastedPower =
      (netFlowStage cfg lvl m (controllerStage cfg s t m (modeRouter cfg s a lvl t m))).wastedPower :=
  rfl

theorem state_powerToBattery (s a lvl : ℚ) (cfg : SystemConfig) (t : ℚ) (m : SystemMode) :
    (calculateSystemState s a lvl cfg t m).powerToBattery =
      (netFlowStage cfg lvl m (controllerStage cfg s t m (modeRouter cfg s a lvl t m))).effectiveControllerOutput :=
  rfl

theorem state_battToInvPower (s a lvl : ℚ) (cfg : SystemConfig) (t : ℚ) (m : SystemMode) :
    (calculateSystemState s a lvl cfg t m).battToInvPower =
      (if 0 < (netFlowStage cfg lvl m (controllerStage cfg s t m (modeRouter cfg s a lvl t m))).gridChargingPower
       then (netFlowStage cfg lvl m (controllerStage cfg s t m (modeRouter cfg s a lvl t m))).gridChargingPower
       else (netFlowStage cfg lvl m (controllerStage cfg s t m (modeRouter cfg s a lvl t m))).inverterDrawFromBattery) :=
  rfl

theorem state_sunIntensity (s a lvl : ℚ) (cfg : SystemConfig) (t : ℚ) (m : SystemMode) :
    (calculateSystemState s a lvl cfg t m).sunIntensity = effectiveIntensity s t :=
  rfl

theorem state_generation (s a lvl : ℚ) (cfg : SystemConfig) (t : ℚ) (m : SystemMode) :
    (calculateSystemState s a lvl cfg t m).generation = solarInput cfg s t :=
  rfl

/-! ### C8 — wire segment model -/

/-- C8: a non-positive power or voltage yields the all-zero safe result;
otherwise current is power over voltage, power loss is exactly current
squared times the round-trip copper resistance, voltage drop is current
times resistance, and the safety flag holds exactly when the current is
within 5 A per square millimetre. -/
theorem calcWire_spec (power voltage lengthFt gauge : ℚ) :
    ((power ≤ 0 ∨ voltage ≤ 0) →
      calcWire power voltage lengthFt gauge =
        { current := 0, powerLoss := 0, voltageDrop := 0, isSafe := true }) ∧
    (0 < power → 0 < voltage →
      (calcWire power voltage lengthFt gauge).current = power / voltage ∧
      (calcWire power voltage lengthFt gauge).powerLoss =
        (power / voltage) ^ 2 * ((172 / 10000) * lengthFt * (3048 / 10000) * 2 / gauge) ∧
      (calcWire power voltage lengthFt gauge).voltageDrop =
        (power / voltage) * ((172 / 10000) * lengthFt * (3048 / 10000) * 2 / gauge) ∧
      ((calcWire power voltage lengthFt gauge).isSafe = true ↔ power / voltage ≤ gauge * 5)) := by
  constructor
  · intro h
    simp only [calcWire, if_pos h]
  · intro hp hv
    have h : ¬(power ≤ 0 ∨ voltage ≤ 0) := by
      push_neg
      exact ⟨hp, hv⟩
    have hcw : calcWire power voltage lengthFt gauge =
        { current := power / voltage
          powerLoss := (power / voltage) ^ 2 *
            (172 / 10000 * (lengthFt * (3048 / 10000)) * 2 / gauge)
          voltageDrop := power / voltage *
            (172 / 10000 * (lengthFt * (3048 / 10000)) * 2 / gauge)
          isSafe := decide (power / voltage ≤ gauge * 5) } := by
      simp only [calcWire, if_neg h]
    rw [hcw]
    refine ⟨rfl, by dsimp only; ring, by dsimp only; ring, ?_⟩
    dsimp only
    simp only [decide_eq_true_eq]

theorem calcWire_spec_witness :
    calcWire (-1) 5 20 10 = { current := 0, powerLoss := 0, voltageDrop := 0, isSafe := true } ∧
    (calcWire 500 25 20 10).current = 500 / 25 ∧
    ((calcWire 500 25 20 10).isSafe = true ↔ (500 : ℚ) / 25 ≤ 10 * 5) :=
  ⟨(calcWire_spec (-1) 5 20 10).1 (Or.inl (by norm_num)),
   ((calcWire_spec 500 25 20 10).2 (by norm_num) (by norm_num)).1,
   ((calcWire_spec 500 25 20 10).2 (by norm_num) (by norm_num)).2.2.2⟩

/-! ### C9 — daylight window -/

/-- C9: outside the [9,16] daylight window the snapshot's effective sun
intensity and generation are exactly 0 for any supplied intensity; inside
the window the supplied intensity passes through and generation is panel
count times panel wattage times that intensity. -/
theorem daylight_window (s a lvl : ℚ) (cfg : SystemConfig) (t : ℚ) (m : SystemMode) :
    ((t < 9 ∨ 16 < t) →
      (calculateSystemState s a lvl cfg t m).sunIntensity = 0 ∧
      (calculateSystemState s a lvl cfg t m).generation = 0) ∧
    (9 ≤ t → t ≤ 16 →
      (calculateSystemState s a lvl cfg t m).sunIntensity = s ∧
      (calculateSystemState s a lvl cfg t m).generation =
        cfg.numPanels * cfg.panelWattage * s) := by
  rw [state_sunIntensity, state_generation]
  constructor
  · intro h
    simp [effectiveIntensity, solarInput, h]
  · intro h9 h16
    have h : ¬(t < 9 ∨ 16 < t) := by
      push_neg
      exact ⟨by linarith, by linarith⟩
    simp [effectiveIntensity, solarInput, h]

theorem daylight_window_witness :
    (calculateSystemState 1 200 3600 DEFAULT_CONFIG 20 .HYBRID).generation = 0 ∧
    (calculateSystemState 1 200 3600 DEFAULT_CONFIG 12 .HYBRID).generation =
      DEFAULT_CONFIG.numPanels * DEFAULT_CONFIG.panelWattage * 1 :=
  ⟨((daylight_window 1 200 3600 DEFAULT_CONFIG 20 .HYBRID).1 (Or.inr (by norm_num))).2,
   ((daylight_window 1 200 3600 DEFAULT_CONFIG 12 .HYBRID).2 (by norm_num) (by norm_num)).2⟩

/-! ### C7 — integrator and elapsed-time deltas -/

/-- C7 fails as stated for negative deltas: with elapsed seconds equal to
-36 the integrator extrapolates backwards and changes the stored battery
energy from 3600 Wh to 3612.5 Wh. -/
theorem negative_dt_not_noop :
    integratorStep DEFAULT_CONFIG 0 100 0 .OFF_GRID 3600 (-36) ≠ 3600 := by
  norm_num [integratorStep, calculateSystemState, netFlowStage, controllerStage, modeRouter,
    gridNetting, calcWire, effectiveIntensity, solarInput, solarStats, powerAtController,
    powerAvailableForCharging, solarAvailableForLoad, maxChargePower, maxWh, batteryPercent,
    inverterInput, DEFAULT_CONFIG, max_def, min_def]

/-- C7 amended: a zero elapsed-time delta leaves the stored battery
energy unchanged whenever the level already lies within [0, maxWh]; a
negative delta is not guarded and integrates with the negative factor. -/
theorem zero_dt_noop (cfg : SystemConfig) (s a t lvl : ℚ) (m : SystemMode)
    (h0 : 0 ≤ lvl) (h1 : lvl ≤ maxWh cfg) :
    integratorStep cfg s a t m lvl 0 = lvl := by
  unfold integratorStep
  simp only [zero_mul, mul_zero, zero_div, add_zero]
  rw [min_eq_left h1, max_eq_right h0]

theorem zero_dt_noop_witness :
    integratorStep DEFAULT_CONFIG 1 200 12 .HYBRID 3600 0 = 3600 :=
  zero_dt_noop DEFAULT_CONFIG 1 200 12 3600 .HYBRID (by norm_num)
    (by norm_num [maxWh, DEFAULT_CONFIG])

/-! ### C6 — battery energy bounds -/

/-- C6: every integrator step lands inside [0, maxWh] from any previous
level, hence any sequence of ticks started in range stays in range and
the battery percentage stays within [0, 100]; the host's re-clamp applied
when capacity or voltage is edited cuts the stored level to the new
maximum, so the percentage never exceeds 100. -/
theorem battery_energy_bounds (cfg : SystemConfig) (hwh : 0 ≤ maxWh cfg) :
    (∀ (s a t lvl dt : ℚ) (m : SystemMode),
      0 ≤ integratorStep cfg s a t m lvl dt ∧
      integratorStep cfg s a t m lvl dt ≤ maxWh cfg) ∧
    (∀ (init : ℚ) (ticks : List TickInput), 0 ≤ init → init ≤ maxWh cfg →
      0 ≤ runTicks cfg init ticks ∧ runTicks cfg init ticks ≤ maxWh cfg) ∧
    (∀ lvl : ℚ, 0 ≤ lvl →
      0 ≤ reclampBatteryLevel cfg lvl ∧ reclampBatteryLevel cfg lvl ≤ maxWh cfg) ∧
    (∀ lvl : ℚ, 0 ≤ lvl → 0 ≤ batteryPercent cfg lvl) ∧
    (∀ lvl : ℚ, 0 < maxWh cfg → lvl ≤ maxWh cfg → batteryPercent cfg lvl ≤ 100) ∧
    (∀ lvl : ℚ, 0 < maxWh cfg →
      batteryPercent cfg (reclampBatteryLevel cfg lvl) ≤ 100) := by
  have hstep : ∀ (s a t lvl dt : ℚ) (m : SystemMode),
      0 ≤ integratorStep cfg s a t m lvl dt ∧
      integratorStep cfg s a t m lvl dt ≤ maxWh cfg := by
    intro s a t lvl dt m
    unfold integratorStep
    exact ⟨le_max_left 0 _, max_le hwh (min_le_right _ _)⟩
  have hpct : ∀ lvl : ℚ, 0 < maxWh cfg → lvl ≤ maxWh cfg → batteryPercent cfg lvl ≤ 100 := by
    intro lvl hpos hle
    unfold batteryPercent
    rw [div_mul_eq_mul_div, div_le_iff₀ hpos]
    nlinarith
  refine ⟨hstep, ?_, ?_, ?_, hpct, ?_⟩
  · intro init ticks
    induction ticks generalizing init with
    | nil => intro h0 h1; exact ⟨h0, h1⟩
    | cons tick rest ih =>
        intro h0 h1
        have h := hstep tick.sunIntensity tick.acLoad tick.timeOfDay init tick.dtSeconds
          tick.systemMode
        exact ih _ h.1 h.2
  · intro lvl h0
    exact ⟨le_min h0 hwh, min_le_right _ _⟩
  · intro lvl h0
    exact mul_nonneg (div_nonneg h0 hwh) (by norm_num)
  · intro lvl hpos
    exact hpct _ hpos (min_le_right _ _)

/-! ### Sign lemmas for the grid quantities -/

theorem maxChargePower_nonneg (cfg : SystemConfig) (hcap : 0 ≤ cfg.batteryCapacityAh)
    (hcr : 0 < cfg.batteryCRating) (hv : 0 ≤ cfg.batteryVoltage) :
    0 ≤ maxChargePower cfg :=
  mul_nonneg (div_nonneg hcap hcr.le) hv

theorem modeRouter_grid_nonneg (cfg : SystemConfig) (s a lvl t : ℚ) (m : SystemMode)
    (ha : 0 ≤ a) (hcap : 0 ≤ cfg.batteryCapacityAh) (hcr : 0 < cfg.batteryCRating)
    (hv : 0 ≤ cfg.batteryVoltage) (hie : 0 < cfg.inverterEfficiency) :
    0 ≤ (modeRouter cfg s a lvl t m).gridImport ∧
    0 ≤ (modeRouter cfg s a lvl t m).gridExport ∧
    0 ≤ (modeRouter cfg s a lvl t m).gridChargingPower := by
  have hmcp := maxChargePower_nonneg cfg hcap hcr hv
  cases m with
  | OFF_GRID => exact ⟨le_refl 0, le_refl 0, le_refl 0⟩
  | ON_GRID =>
      simp only [modeRouter]
      by_cases hle : a ≤ solarInput cfg s t * cfg.inverterEfficiency
      · rw [if_pos hle]
        exact ⟨le_refl 0, sub_nonneg.mpr hle, le_refl 0⟩
      · rw [if_neg hle]
        exact ⟨sub_nonneg.mpr (not_le.mp hle).le, le_refl 0, le_refl 0⟩
  | HYBRID =>
      simp only [modeRouter]
      by_cases h1 : inverterInput cfg a ≤ solarAvailableForLoad cfg s t
      · rw [if_pos h1]
        exact ⟨le_refl 0, le_refl 0, le_refl 0⟩
      · rw [if_neg h1]
        by_cases h2 : 30 < batteryPercent cfg lvl
        · rw [if_pos h2]
          exact ⟨le_refl 0, le_refl 0, le_refl 0⟩
        · rw [if_neg h2]
          by_cases h3 : batteryPercent cfg lvl < 20 ∧ effectiveIntensity s t < 1 / 10
          · rw [if_pos h3]
            have hgcp : 0 ≤ maxChargePower cfg / cfg.inverterEfficiency :=
              div_nonneg hmcp hie.le
            exact ⟨add_nonneg ha hgcp, le_refl 0, hgcp⟩
          · rw [if_neg h3]
            exact ⟨ha, le_refl 0, le_refl 0⟩

theorem controllerStage_grid_nonneg (cfg : SystemConfig) (s t : ℚ) (m : SystemMode)
    (r : RouterVars) (hie : 0 ≤ cfg.inverterEfficiency)
    (hi : 0 ≤ r.gridImport) (he : 0 ≤ r.gridExport) (hc : 0 ≤ r.gridChargingPower) :
    0 ≤ (controllerStage cfg s t m r).gridImport ∧
    0 ≤ (controllerStage cfg s t m r).gridExport ∧
    0 ≤ (controllerStage cfg s t m r).gridChargingPower := by
  cases m with
  | ON_GRID => exact ⟨hi, he, hc⟩
  | OFF_GRID =>
      simp only [controllerStage]
      by_cases h : maxChargePower cfg + r.inverterDrawFromBattery <
          powerAvailableForCharging cfg s t
      · rw [if_pos h]
        exact ⟨hi, he, hc⟩
      · rw [if_neg h]
        exact ⟨hi, he, hc⟩
  | HYBRID =>
      simp only [controllerStage]
      by_cases h : maxChargePower cfg + r.inverterDrawFromBattery <
          powerAvailableForCharging cfg s t
      · rw [if_pos h]
        exact ⟨hi, mul_nonneg (by linarith) hie, hc⟩
      · rw [if_neg h]
        exact ⟨hi, he, hc⟩

theorem netFlowStage_grid_nonneg (cfg : SystemConfig) (lvl : ℚ) (m : SystemMode)
    (c : ControllerVars) (hie : 0 ≤ cfg.inverterEfficiency)
    (hi : 0 ≤ c.gridImport) (he : 0 ≤ c.gridExport) :
    0 ≤ (netFlowStage cfg lvl m c).gridImport ∧
    0 ≤ (netFlowStage cfg lvl m c).gridExport := by
  cases m with
  | ON_GRID => exact ⟨hi, he⟩
  | OFF_GRID =>
      simp only [netFlowStage]
      by_cases h : 100 ≤ batteryPercent cfg lvl ∧
          0 < c.powerToBattery + c.gridChargingPower * cfg.inverterEfficiency -
            c.inverterDrawFromBattery
      · rw [if_pos h]
        exact ⟨hi, he⟩
      · rw [if_neg h]
        exact ⟨hi, he⟩
  | HYBRID =>
      simp only [netFlowStage]
      by_cases h : 100 ≤ batteryPercent cfg lvl ∧
          0 < c.powerToBattery + c.gridChargingPower * cfg.inverterEfficiency -
            c.inverterDrawFromBattery
      · rw [if_pos h]
        exact ⟨hi, add_nonneg he (mul_nonneg h.2.le hie)⟩
      · rw [if_neg h]
        exact ⟨hi, he⟩

theorem gridNetting_exclusive (i e : ℚ) (hi : 0 ≤ i) (he : 0 ≤ e) :
    (gridNetting i e).1 = 0 ∨ (gridNetting i e).2 = 0 := by
  unfold gridNetting
  by_cases h : 0 < i ∧ 0 < e
  · rw [if_pos h]
    by_cases h2 : e ≤ i
    · rw [if_pos h2]
      exact Or.inr rfl
    · rw [if_neg h2]
      exact Or.inl rfl
  · rw [if_neg h]
    push_neg at h
    rcases eq_or_lt_of_le hi with hi0 | hip
    · exact Or.inl hi0.symm
    · exact Or.inr (le_antisymm (h hip) he)

/-! ### C1 — grid import/export mutual exclusion -/

/-- C1: for every mode and input under validated configuration the
snapshot never reports both grid import and grid export non-zero; the
snapshot's import/export are exactly the netting step applied to the
pre-netting values, and when both sides are positive the larger absorbs
the smaller, which is set to exactly zero. -/
theorem grid_import_export_exclusive (s a lvl : ℚ) (cfg : SystemConfig) (t : ℚ) (m : SystemMode)
    (ha : 0 ≤ a) (hcap : 0 ≤ cfg.batteryCapacityAh) (hcr : 0 < cfg.batteryCRating)
    (hv : 0 ≤ cfg.batteryVoltage) (hie : 0 < cfg.inverterEfficiency) :
    ((calculateSystemState s a lvl cfg t m).gridImport = 0 ∨
     (calculateSystemState s a lvl cfg t m).gridExport = 0) ∧
    ((calculateSystemState s a lvl cfg t m).gridImport =
      (gridNetting
        (netFlowStage cfg lvl m (controllerStage cfg s t m (modeRouter cfg s a lvl t m))).gridImport
        (netFlowStage cfg lvl m (controllerStage cfg s t m (modeRouter cfg s a lvl t m))).gridExport).1 ∧
     (calculateSystemState s a lvl cfg t m).gridExport =
      (gridNetting
        (netFlowStage cfg lvl m (controllerStage cfg s t m (modeRouter cfg s a lvl t m))).gridImport
        (netFlowStage cfg lvl m (controllerStage cfg s t m (modeRouter cfg s a lvl t m))).gridExport).2) ∧
    (∀ i e : ℚ, 0 < i → 0 < e →
      (e ≤ i → gridNetting i e = (i - e, 0)) ∧ (i < e → gridNetting i e = (0, e - i))) := by
  have h1 := modeRouter_grid_nonneg cfg s a lvl t m ha hcap hcr hv hie
  have h2 := controllerStage_grid_nonneg cfg s t m (modeRouter cfg s a lvl t m) hie.le
    h1.1 h1.2.1 h1.2.2
  have h3 := netFlowStage_grid_nonneg cfg lvl m
    (controllerStage cfg s t m (modeRouter cfg s a lvl t m)) hie.le h2.1 h2.2.1
  refine ⟨?_, ⟨state_gridImport s a lvl cfg t m, state_gridExport s a lvl cfg t m⟩, ?_⟩
  · rw [state_gridImport, state_gridExport]
    exact gridNetting_exclusive _ _ h3.1 h3.2
  · intro i e hi he
    constructor
    · intro hle
      unfold gridNetting
      rw [if_pos ⟨hi, he⟩, if_pos hle]
    · intro hlt
      unfold gridNetting
      rw [if_pos ⟨hi, he⟩, if_neg (not_le.mpr hlt)]

theorem grid_import_export_exclusive_witness :
    (calculateSystemState 1 200 3600 DEFAULT_CONFIG 12 .HYBRID).gridImport = 0 ∨
    (calculateSystemState 1 200 3600 DEFAULT_CONFIG 12 .HYBRID).gridExport = 0 :=
  (grid_import_export_exclusive 1 200 3600 DEFAULT_CONFIG 12 .HYBRID (by norm_num)
    (by norm_num [DEFAULT_CONFIG]) (by norm_num [DEFAULT_CONFIG]) (by norm_num [DEFAULT_CONFIG])
    (by norm_num [DEFAULT_CONFIG])).1

/-! ### Helper lemmas for the clamp and netting analysis -/

theorem controllerStage_preserves (cfg : SystemConfig) (s t : ℚ) (m : SystemMode)
    (r : RouterVars) :
    (controllerStage cfg s t m r).gridImport = r.gridImport ∧
    (controllerStage cfg s t m r).gridChargingPower = r.gridChargingPower := by
  cases m with
  | ON_GRID => exact ⟨rfl, rfl⟩
  | OFF_GRID =>
      simp only [controllerStage]
      by_cases h : maxChargePower cfg + r.inverterDrawFromBattery <
          powerAvailableForCharging cfg s t
      · rw [if_pos h]
        exact ⟨rfl, rfl⟩
      · rw [if_neg h]
        exact ⟨rfl, rfl⟩
  | HYBRID =>
      simp only [controllerStage]
      by_cases h : maxChargePower cfg + r.inverterDrawFromBattery <
          powerAvailableForCharging cfg s t
      · rw [if_pos h]
        exact ⟨rfl, rfl⟩
      · rw [if_neg h]
        exact ⟨rfl, rfl⟩

theorem modeRouter_hybrid_battery_ok (cfg : SystemConfig) (s a lvl t : ℚ)
    (h30 : 30 < batteryPercent cfg lvl) :
    (modeRouter cfg s a lvl t .HYBRID).gridImport = 0 ∧
    (modeRouter cfg s a lvl t .HYBRID).gridChargingPower = 0 := by
  simp only [modeRouter]
  by_cases h1 : inverterInput cfg a ≤ solarAvailableForLoad cfg s t
  · rw [if_pos h1]
    exact ⟨rfl, rfl⟩
  · rw [if_neg h1, if_pos h30]
    exact ⟨rfl, rfl⟩

theorem gridNetting_zero_left (e : ℚ) : gridNetting 0 e = (0, e) := by
  unfold gridNetting
  rw [if_neg]
  rintro ⟨h, _⟩
  exact lt_irrefl 0 h

/-! ### C2 — full-battery clamp -/

/-- C2: when the battery percentage is at least 100 and the pre-clamp net
battery flow is positive, the returned net battery flow is exactly 0; in
HYBRID the excess is diverted to export (the inverter draw and grid
export each grow by the diverted amount, export scaled by inverter
efficiency), in OFF_GRID it is subtracted from the effective controller
output and added to wasted power. -/
theorem full_battery_clamp (s a lvl : ℚ) (cfg : SystemConfig) (t : ℚ) (m : SystemMode)
    (hfull : 100 ≤ batteryPercent cfg lvl)
    (hpos : 0 < preClampNetFlow cfg s a lvl t m) :
    (calculateSystemState s a lvl cfg t m).netBatteryFlow = 0 ∧
    (m = .HYBRID →
      (calculateSystemState s a lvl cfg t m).gridExport =
        (controllerStage cfg s t m (modeRouter cfg s a lvl t m)).gridExport +
          preClampNetFlow cfg s a lvl t m * cfg.inverterEfficiency ∧
      (calculateSystemState s a lvl cfg t m).battToInvPower =
        (controllerStage cfg s t m (modeRouter cfg s a lvl t m)).inverterDrawFromBattery +
          preClampNetFlow cfg s a lvl t m) ∧
    (m = .OFF_GRID →
      (calculateSystemState s a lvl cfg t m).powerToBattery =
        (controllerStage cfg s t m (modeRouter cfg s a lvl t m)).powerToBattery -
          preClampNetFlow cfg s a lvl t m ∧
      (calculateSystemState s a lvl cfg t m).wastedPower =
        (controllerStage cfg s t m (modeRouter cfg s a lvl t m)).wastedPower +
          preClampNetFlow cfg s a lvl t m) := by
  simp only [preClampNetFlow] at hpos ⊢
  cases m with
  | ON_GRID =>
      refine ⟨rfl, ?_, ?_⟩
      · intro h
        exact absurd h (by decide)
      · intro h
        exact absurd h (by decide)
  | HYBRID =>
      have h30 : 30 < batteryPercent cfg lvl := by linarith
      have hri := modeRouter_hybrid_battery_ok cfg s a lvl t h30
      have hcpres := controllerStage_preserves cfg s t .HYBRID (modeRouter cfg s a lvl t .HYBRID)
      set c := controllerStage cfg s t .HYBRID (modeRouter cfg s a lvl t .HYBRID) with hcdef
      have hci : c.gridImport = 0 := by rw [hcpres.1, hri.1]
      have hcc : c.gridChargingPower = 0 := by rw [hcpres.2, hri.2]
      have hcond : 100 ≤ batteryPercent cfg lvl ∧
          0 < c.powerToBattery + c.gridChargingPower * cfg.inverterEfficiency -
            c.inverterDrawFromBattery := ⟨hfull, hpos⟩
      have hn : netFlowStage cfg lvl .HYBRID c =
          { inverterDrawFromBattery := c.inverterDrawFromBattery +
              (c.powerToBattery + c.gridChargingPower * cfg.inverterEfficiency -
                c.inverterDrawFromBattery)
            gridActive := c.gridActive
            gridExport := c.gridExport +
              (c.powerToBattery + c.gridChargingPower * cfg.inverterEfficiency -
                c.inverterDrawFromBattery) * cfg.inverterEfficiency
            gridImport := c.gridImport
            gridChargingPower := c.gridChargingPower
            wastedPower := c.wastedPower
            netBatteryFlow := 0
            effectiveControllerOutput := c.powerToBattery } := by
        simp only [netFlowStage]
        rw [if_pos hcond]
      refine ⟨?_, fun _ => ⟨?_, ?_⟩, ?_⟩
      · rw [state_netBatteryFlow, ← hcdef, hn]
      · rw [state_gridExport, ← hcdef, hn]
        simp only [hci, gridNetting_zero_left]
      · rw [state_battToInvPower, ← hcdef, hn]
        simp only [hcc]
        rw [if_neg (lt_irrefl 0)]
      · intro h
        exact absurd h (by decide)
  | OFF_GRID =>
      set c := controllerStage cfg s t .OFF_GRID (modeRouter cfg s a lvl t .OFF_GRID) with hcdef
      have hcond : 100 ≤ batteryPercent cfg lvl ∧
          0 < c.powerToBattery + c.gridChargingPower * cfg.inverterEfficiency -
            c.inverterDrawFromBattery := ⟨hfull, hpos⟩
      have hn : netFlowStage cfg lvl .OFF_GRID c =
          { inverterDrawFromBattery := c.inverterDrawFromBattery
            gridActive := c.gridActive
            gridExport := c.gridExport
            gridImport := c.gridImport
            gridChargingPower := c.gridChargingPower
            wastedPower := c.wastedPower +
              (c.powerToBattery + c.gridChargingPower * cfg.inverterEfficiency -
                c.inverterDrawFromBattery)
            netBatteryFlow := 0
            effectiveControllerOutput := c.powerToBattery -
              (c.powerToBattery + c.gridChargingPower * cfg.inverterEfficiency -
                c.inverterDrawFromBattery) } := by
        simp only [netFlowStage]
        rw [if_pos hcond]
      refine ⟨?_, ?_, fun _ => ⟨?_, ?_⟩⟩
      · rw [state_netBatteryFlow, ← hcdef, hn]
      · intro h
        exact absurd h (by decide)
      · rw [state_powerToBattery, ← hcdef, hn]
      · rw [state_wastedPower, ← hcdef, hn]

theorem full_battery_clamp_witness :
    100 ≤ batteryPercent { DEFAULT_CONFIG with wireLengthFt := 0 } 7200 ∧
    0 < preClampNetFlow { DEFAULT_CONFIG with wireLengthFt := 0 } 1 200 7200 12 .HYBRID ∧
    (calculateSystemState 1 200 7200 { DEFAULT_CONFIG with wireLengthFt := 0 } 12
      .HYBRID).netBatteryFlow = 0 := by
  have h1 : 100 ≤ batteryPercent { DEFAULT_CONFIG with wireLengthFt := 0 } 7200 := by
    norm_num [batteryPercent, maxWh, DEFAULT_CONFIG]
  have h2 : 0 < preClampNetFlow { DEFAULT_CONFIG with wireLengthFt := 0 } 1 200 7200 12
      .HYBRID := by
    norm_num [preClampNetFlow, controllerStage, modeRouter, maxChargePower, batteryPercent,
      maxWh, inverterInput, powerAvailableForCharging, solarAvailableForLoad, powerAtController,
      solarStats, solarInput, effectiveIntensity, calcWire, DEFAULT_CONFIG, max_def]
  exact ⟨h1, h2,
    (full_battery_clamp 1 200 7200 { DEFAULT_CONFIG with wireLengthFt := 0 } 12 .HYBRID h1
      h2).1⟩

/-! ### C3 — HYBRID reserve and emergency charge -/

/-- C3: in HYBRID mode with the battery at or below the 30% reserve and
DC-bus solar short of the inverter demand, the router imports the full AC
load from the grid and draws nothing from the battery; when additionally
the state of charge is below 20% and the effective sun intensity is below
0.1, the import is increased by exactly maxChargePower divided by
inverter efficiency and the evaluation's net battery flow is positive. -/
theorem hybrid_reserve_grid_import (s a lvl : ℚ) (cfg : SystemConfig) (t : ℚ)
    (hres : batteryPercent cfg lvl ≤ 30)
    (hsol : solarAvailableForLoad cfg s t < inverterInput cfg a)
    (hcap : 0 < cfg.batteryCapacityAh) (hcr : 0 < cfg.batteryCRating)
    (hv : 0 < cfg.batteryVoltage) (hie : 0 < cfg.inverterEfficiency)
    (hce : 0 ≤ cfg.controllerEfficiency) :
    (modeRouter cfg s a lvl t .HYBRID).inverterDrawFromBattery = 0 ∧
    (¬(batteryPercent cfg lvl < 20 ∧ effectiveIntensity s t < 1 / 10) →
      (modeRouter cfg s a lvl t .HYBRID).gridImport = a) ∧
    (batteryPercent cfg lvl < 20 → effectiveIntensity s t < 1 / 10 →
      (modeRouter cfg s a lvl t .HYBRID).gridImport =
        a + maxChargePower cfg / cfg.inverterEfficiency ∧
      0 < (calculateSystemState s a lvl cfg t .HYBRID).netBatteryFlow) := by
  have h1 : ¬ inverterInput cfg a ≤ solarAvailableForLoad cfg s t := not_le.mpr hsol
  have h2 : ¬ 30 < batteryPercent cfg lvl := not_lt.mpr hres
  have hmcp : 0 < maxChargePower cfg := mul_pos (div_pos hcap hcr) hv
  refine ⟨?_, ?_, ?_⟩
  · simp only [modeRouter]
    rw [if_neg h1, if_neg h2]
    by_cases h3 : batteryPercent cfg lvl < 20 ∧ effectiveIntensity s t < 1 / 10
    · rw [if_pos h3]
    · rw [if_neg h3]
  · intro h3
    simp only [modeRouter]
    rw [if_neg h1, if_neg h2, if_neg h3]
  · intro h20 hlow
    have h3 : batteryPercent cfg lvl < 20 ∧ effectiveIntensity s t < 1 / 10 := ⟨h20, hlow⟩
    have hr : modeRouter cfg s a lvl t .HYBRID =
        { inverterDrawFromBattery := 0, gridActive := true, gridExport := 0
          gridImport := a + maxChargePower cfg / cfg.inverterEfficiency
          gridChargingPower := maxChargePower cfg / cfg.inverterEfficiency } := by
      simp only [modeRouter]
      rw [if_neg h1, if_neg h2, if_pos h3]
    have hgdc : maxChargePower cfg / cfg.inverterEfficiency * cfg.inverterEfficiency =
        maxChargePower cfg := div_mul_cancel₀ _ hie.ne'
    have havail : 0 ≤ powerAvailableForCharging cfg s t :=
      mul_nonneg (le_max_left 0 _) hce
    have hnotfull : ¬ (100 : ℚ) ≤ batteryPercent cfg lvl := by linarith
    refine ⟨by rw [hr], ?_⟩
    rw [state_netBatteryFlow, hr]
    simp only [controllerStage, netFlowStage]
    split_ifs with hc hf hf <;>
      first
        | (exact absurd hf.1 hnotfull)
        | (simp only []; linarith [hgdc, havail, hmcp])

theorem hybrid_reserve_grid_import_witness :
    (modeRouter DEFAULT_CONFIG 0 500 1080 12 .HYBRID).gridImport =
      500 + maxChargePower DEFAULT_CONFIG / DEFAULT_CONFIG.inverterEfficiency ∧
    0 < (calculateSystemState 0 500 1080 DEFAULT_CONFIG 12 .HYBRID).netBatteryFlow := by
  have h := hybrid_reserve_grid_import 0 500 1080 DEFAULT_CONFIG 12
    (by norm_num [batteryPercent, maxWh, DEFAULT_CONFIG])
    (by norm_num [solarAvailableForLoad, powerAtController, solarStats, solarInput,
      effectiveIntensity, calcWire, inverterInput, DEFAULT_CONFIG, max_def])
    (by norm_num [DEFAULT_CONFIG]) (by norm_num [DEFAULT_CONFIG]) (by norm_num [DEFAULT_CONFIG])
    (by norm_num [DEFAULT_CONFIG]) (by norm_num [DEFAULT_CONFIG])
  exact h.2.2 (by norm_num [batteryPercent, maxWh, DEFAULT_CONFIG])
    (by norm_num [effectiveIntensity])

/-! ### C4 — charge-rate ceiling -/

/-- C4 fails as the claim states it: at this HYBRID input the emergency
grid charge is added on top of the solar charge, so the returned net
battery flow is 24 W while maxChargePower is only 12 W. -/
theorem net_flow_exceeds_max_charge :
    maxChargePower { DEFAULT_CONFIG with batteryCapacityAh := 10, wireLengthFt := 0 } <
      (calculateSystemState (1 / 20) 500 24
        { DEFAULT_CONFIG with batteryCapacityAh := 10, wireLengthFt := 0 } 12
        .HYBRID).netBatteryFlow := by
  norm_num [calculateSystemState, netFlowStage, controllerStage, modeRouter, gridNetting,
    calcWire, effectiveIntensity, solarInput, solarStats, powerAtController,
    powerAvailableForCharging, solarAvailableForLoad, maxChargePower, maxWh, batteryPercent,
    inverterInput, DEFAULT_CONFIG, max_def, min_def]

theorem net_flow_le (cfg : SystemConfig) (s t lvl : ℚ) (m : SystemMode) (r : RouterVars)
    (hmcp : 0 ≤ maxChargePower cfg)
    (hg : 0 ≤ r.gridChargingPower * cfg.inverterEfficiency) :
    (netFlowStage cfg lvl m (controllerStage cfg s t m r)).netBatteryFlow ≤
      maxChargePower cfg + r.gridChargingPower * cfg.inverterEfficiency := by
  cases m with
  | ON_GRID =>
      simpa [netFlowStage] using add_nonneg hmcp hg
  | OFF_GRID =>
      simp only [controllerStage]
      split_ifs with hc
      all_goals
        simp only [netFlowStage]
        split_ifs with hf
        all_goals
          dsimp only
          linarith
  | HYBRID =>
      simp only [controllerStage]
      split_ifs with hc
      all_goals
        simp only [netFlowStage]
        split_ifs with hf
        all_goals
          dsimp only
          linarith

theorem gridChargingPower_le (cfg : SystemConfig) (s a lvl t : ℚ) (m : SystemMode)
    (hmcp : 0 ≤ maxChargePower cfg) (hie : 0 < cfg.inverterEfficiency) :
    (modeRouter cfg s a lvl t m).gridChargingPower * cfg.inverterEfficiency ≤
      maxChargePower cfg := by
  cases m with
  | OFF_GRID => simpa [modeRouter] using hmcp
  | ON_GRID =>
      simp only [modeRouter]
      split_ifs <;> simpa using hmcp
  | HYBRID =>
      simp only [modeRouter]
      split_ifs with h1 h2 h3
      · simpa using hmcp
      · simpa using hmcp
      · dsimp only
        rw [div_mul_cancel₀ _ hie.ne']
      · simpa using hmcp

/-- C4 amended: the returned net battery flow never exceeds
maxChargePower plus the emergency grid charge converted to the DC side
(gridChargingPower times inverter efficiency), and that emergency DC
charge is itself at most maxChargePower.  Hence on any path where the
HYBRID emergency charge does not fire (gridChargingPower = 0) the
original maxChargePower ceiling holds, while the emergency path can reach
up to twice maxChargePower because the grid charge is added on top of the
solar charge. -/
theorem net_flow_bounded (s a lvl : ℚ) (cfg : SystemConfig) (t : ℚ) (m : SystemMode)
    (hcap : 0 ≤ cfg.batteryCapacityAh) (hcr : 0 < cfg.batteryCRating)
    (hv : 0 ≤ cfg.batteryVoltage) (hie : 0 < cfg.inverterEfficiency) :
    (calculateSystemState s a lvl cfg t m).netBatteryFlow ≤
      maxChargePower cfg +
        (modeRouter cfg s a lvl t m).gridChargingPower * cfg.inverterEfficiency ∧
    (modeRouter cfg s a lvl t m).gridChargingPower * cfg.inverterEfficiency ≤
      maxChargePower cfg := by
  have hmcp := maxChargePower_nonneg cfg hcap hcr hv
  have hgnn : 0 ≤ (modeRouter cfg s a lvl t m).gridChargingPower := by
    cases m with
    | OFF_GRID => exact le_refl 0
    | ON_GRID =>
        simp only [modeRouter]
        split_ifs <;> exact le_refl 0
    | HYBRID =>
        simp only [modeRouter]
        split_ifs <;> first
          | exact le_refl 0
          | exact div_nonneg hmcp hie.le
  constructor
  · rw [state_netBatteryFlow]
    exact net_flow_le cfg s t lvl m (modeRouter cfg s a lvl t m) hmcp
      (mul_nonneg hgnn hie.le)
  · exact gridChargingPower_le cfg s a lvl t m hmcp hie

theorem net_flow_bounded_witness :
    (calculateSystemState 1 200 3600 DEFAULT_CONFIG 12 .HYBRID).netBatteryFlow ≤
      maxChargePower DEFAULT_CONFIG +
        (modeRouter DEFAULT_CONFIG 1 200 3600 12 .HYBRID).gridChargingPower *
          DEFAULT_CONFIG.inverterEfficiency :=
  (net_flow_bounded 1 200 3600 DEFAULT_CONFIG 12 .HYBRID (by norm_num [DEFAULT_CONFIG])
    (by norm_num [DEFAULT_CONFIG]) (by norm_num [DEFAULT_CONFIG])
    (by norm_num [DEFAULT_CONFIG])).1

/-! ### C5 — ON_GRID mode -/

/-- C5: in ON_GRID mode the battery is bypassed for every input: net
battery flow is exactly 0, the inverter draws nothing from the battery,
the grid is active, and AC solar output (generation times inverter
efficiency) is compared to the AC load to set export or import with the
other side exactly 0. -/
theorem on_grid_behavior (s a lvl : ℚ) (cfg : SystemConfig) (t : ℚ) :
    (calculateSystemState s a lvl cfg t .ON_GRID).netBatteryFlow = 0 ∧
    (modeRouter cfg s a lvl t .ON_GRID).inverterDrawFromBattery = 0 ∧
    (calculateSystemState s a lvl cfg t .ON_GRID).battToInvPower = 0 ∧
    (calculateSystemState s a lvl cfg t .ON_GRID).gridActive = true ∧
    (a ≤ solarInput cfg s t * cfg.inverterEfficiency →
      (calculateSystemState s a lvl cfg t .ON_GRID).gridExport =
        solarInput cfg s t * cfg.inverterEfficiency - a ∧
      (calculateSystemState s a lvl cfg t .ON_GRID).gridImport = 0) ∧
    (solarInput cfg s t * cfg.inverterEfficiency < a →
      (calculateSystemState s a lvl cfg t .ON_GRID).gridImport =
        a - solarInput cfg s t * cfg.inverterEfficiency ∧
      (calculateSystemState s a lvl cfg t .ON_GRID).gridExport = 0) := by
  by_cases hle : a ≤ solarInput cfg s t * cfg.inverterEfficiency
  · have hr : modeRouter cfg s a lvl t .ON_GRID =
        { inverterDrawFromBattery := 0, gridActive := true
          gridExport := solarInput cfg s t * cfg.inverterEfficiency - a
          gridImport := 0, gridChargingPower := 0 } := by
      simp only [modeRouter, if_pos hle]
    refine ⟨?_, ?_, ?_, ?_, fun _ => ⟨?_, ?_⟩, fun hlt => absurd hle (not_le.mpr hlt)⟩ <;>
      simp [state_netBatteryFlow, state_battToInvPower, state_gridActive, state_gridExport,
        state_gridImport, hr, controllerStage, netFlowStage, gridNetting]
  · have hlt := not_le.mp hle
    have hr : modeRouter cfg s a lvl t .ON_GRID =
        { inverterDrawFromBattery := 0, gridActive := true
          gridExport := 0
          gridImport := a - solarInput cfg s t * cfg.inverterEfficiency
          gridChargingPower := 0 } := by
      simp only [modeRouter, if_neg hle]
    refine ⟨?_, ?_, ?_, ?_, fun hc => absurd hc hle, fun _ => ⟨?_, ?_⟩⟩ <;>
      simp [state_netBatteryFlow, state_battToInvPower, state_gridActive, state_gridExport,
        state_gridImport, hr, controllerStage, netFlowStage, gridNetting]

theorem on_grid_behavior_witness :
    (calculateSystemState 0 200 3600 DEFAULT_CONFIG 12 .ON_GRID).gridImport = 200 ∧
    (calculateSystemState 0 200 3600 DEFAULT_CONFIG 12 .ON_GRID).gridExport = 0 ∧
    (calculateSystemState 0 200 3600 DEFAULT_CONFIG 12 .ON_GRID).netBatteryFlow = 0 := by
  have h := on_grid_behavior 0 200 3600 DEFAULT_CONFIG 12
  have hsol : solarInput DEFAULT_CONFIG 0 12 * DEFAULT_CONFIG.inverterEfficiency < 200 := by
    norm_num [solarInput, effectiveIntensity, DEFAULT_CONFIG]
  have himp := h.2.2.2.2.2 hsol
  refine ⟨?_, himp.2, h.1⟩
  rw [himp.1]
  norm_num [solarInput, effectiveIntensity, DEFAULT_CONFIG]

theorem battery_energy_bounds_witness :
    0 ≤ integratorStep DEFAULT_CONFIG 1 200 12 .HYBRID 3600 1 ∧
    integratorStep DEFAULT_CONFIG 1 200 12 .HYBRID 3600 1 ≤ maxWh DEFAULT_CONFIG :=
  (battery_energy_bounds DEFAULT_CONFIG (by norm_num [maxWh, DEFAULT_CONFIG])).1 1 200 12 3600 1
    .HYBRID

/-! ### C10 — the two engine copies -/

theorem webui_gridImport_eq (s a lvl : ℚ) (cfg : SystemConfig) (t : ℚ) (m : SystemMode) :
    (WebUI.calculateSystemState s a lvl cfg t m).gridImport =
      (WebUI.route cfg s a lvl t m).gridImport :=
  rfl

theorem webui_gridExport_eq (s a lvl : ℚ) (cfg : SystemConfig) (t : ℚ) (m : SystemMode) :
    (WebUI.calculateSystemState s a lvl cfg t m).gridExport =
      (WebUI.route cfg s a lvl t m).gridExport :=
  rfl

theorem webui_gridActive_eq (s a lvl : ℚ) (cfg : SystemConfig) (t : ℚ) (m : SystemMode) :
    (WebUI.calculateSystemState s a lvl cfg t m).gridActive =
      (WebUI.route cfg s a lvl t m).gridActive :=
  rfl

theorem on_grid_chain_gridImport (cfg : SystemConfig) (s t lvl : ℚ) (r : RouterVars) :
    (netFlowStage cfg lvl .ON_GRID (controllerStage cfg s t .ON_GRID r)).gridImport =
      r.gridImport :=
  rfl

theorem on_grid_chain_gridExport (cfg : SystemConfig) (s t lvl : ℚ) (r : RouterVars) :
    (netFlowStage cfg lvl .ON_GRID (controllerStage cfg s t .ON_GRID r)).gridExport =
      r.gridExport :=
  rfl

theorem on_grid_chain_gridActive (cfg : SystemConfig) (s t lvl : ℚ) (r : RouterVars) :
    (netFlowStage cfg lvl .ON_GRID (controllerStage cfg s t .ON_GRID r)).gridActive =
      r.gridActive :=
  rfl

theorem gridNetting_zero_right (i : ℚ) : gridNetting i 0 = (i, 0) := by
  unfold gridNetting
  rw [if_neg]
  rintro ⟨_, h⟩
  exact lt_irrefl 0 h

/-- C10 fails as stated: at night with the battery at 50% in HYBRID mode
the web_ui copy imports the full AC load (its 70% grid threshold fires)
while the refined copy serves the load from the battery (its threshold is
30%), so the two copies disagree on gridImport at an identical input. -/
theorem engines_differ_on_hybrid :
    (WebUI.calculateSystemState 0 100 3600 DEFAULT_CONFIG 0 .HYBRID).gridImport ≠
      (calculateSystemState 0 100 3600 DEFAULT_CONFIG 0 .HYBRID).gridImport := by
  have h1 : (WebUI.calculateSystemState 0 100 3600 DEFAULT_CONFIG 0 .HYBRID).gridImport =
      100 := by
    rw [webui_gridImport_eq]
    simp only [WebUI.route]
    rw [if_pos (by norm_num [batteryPercent, maxWh, DEFAULT_CONFIG])]
  have h2 : (calculateSystemState 0 100 3600 DEFAULT_CONFIG 0 .HYBRID).gridImport = 0 := by
    norm_num [calculateSystemState, netFlowStage, controllerStage, modeRouter, gridNetting,
      calcWire, effectiveIntensity, solarInput, solarStats, powerAtController,
      powerAvailableForCharging, solarAvailableForLoad, maxChargePower, maxWh, batteryPercent,
      inverterInput, DEFAULT_CONFIG, max_def, min_def]
  rw [h1, h2]
  norm_num

/-- C10 amended: the two engine copies agree on all the snapshot fields
they share only in ON_GRID mode, where both bypass the battery and use
the same import/export comparison; in OFF_GRID and HYBRID they diverge
(the web_ui copy uses a 70% battery threshold instead of 30%, does not
serve the inverter demand through the controller budget, and has no
emergency charge, export redirection, full-battery waste accounting or
grid netting). -/
theorem engines_agree_on_grid (s a lvl : ℚ) (cfg : SystemConfig) (t : ℚ) :
    (WebUI.calculateSystemState s a lvl cfg t .ON_GRID).netBatteryFlow =
      (calculateSystemState s a lvl cfg t .ON_GRID).netBatteryFlow ∧
    (WebUI.calculateSystemState s a lvl cfg t .ON_GRID).gridImport =
      (calculateSystemState s a lvl cfg t .ON_GRID).gridImport ∧
    (WebUI.calculateSystemState s a lvl cfg t .ON_GRID).gridExport =
      (calculateSystemState s a lvl cfg t .ON_GRID).gridExport ∧
    (WebUI.calculateSystemState s a lvl cfg t .ON_GRID).gridActive =
      (calculateSystemState s a lvl cfg t .ON_GRID).gridActive ∧
    (WebUI.calculateSystemState s a lvl cfg t .ON_GRID).powerToBattery =
      (calculateSystemState s a lvl cfg t .ON_GRID).powerToBattery ∧
    (WebUI.calculateSystemState s a lvl cfg t .ON_GRID).wastedPower =
      (calculateSystemState s a lvl cfg t .ON_GRID).wastedPower ∧
    (WebUI.calculateSystemState s a lvl cfg t .ON_GRID).inverterInput =
      (calculateSystemState s a lvl cfg t .ON_GRID).inverterInput ∧
    (WebUI.calculateSystemState s a lvl cfg t .ON_GRID).batteryPercent =
      (calculateSystemState s a lvl cfg t .ON_GRID).batteryPercent ∧
    (WebUI.calculateSystemState s a lvl cfg t .ON_GRID).wireStats =
      (calculateSystemState s a lvl cfg t .ON_GRID).wireStats := by
  by_cases hle : a ≤ solarInput cfg s t * cfg.inverterEfficiency
  · have hra : modeRouter cfg s a lvl t .ON_GRID =
        { inverterDrawFromBattery := 0, gridActive := true
          gridExport := solarInput cfg s t * cfg.inverterEfficiency - a
          gridImport := 0, gridChargingPower := 0 } := by
      simp only [modeRouter]
      rw [if_pos hle]
    have hrw : WebUI.route cfg s a lvl t .ON_GRID =
        { inverterDrawFromBattery := 0, gridActive := true
          gridExport := solarInput cfg s t * cfg.inverterEfficiency - a
          gridImport := 0 } := by
      simp only [WebUI.route]
      rw [if_pos hle]
    refine ⟨rfl, ?_, ?_, ?_, rfl, rfl, rfl, rfl, ?_⟩
    · rw [webui_gridImport_eq, hrw, state_gridImport, on_grid_chain_gridImport,
        on_grid_chain_gridExport, hra]
      dsimp only
      rw [gridNetting_zero_left]
    · rw [webui_gridExport_eq, hrw, state_gridExport, on_grid_chain_gridImport,
        on_grid_chain_gridExport, hra]
      dsimp only
      rw [gridNetting_zero_left]
    · rw [webui_gridActive_eq, hrw, state_gridActive, on_grid_chain_gridActive, hra]
    · simp [WebUI.calculateSystemState, calculateSystemState, WebUI.chargeSplit,
        controllerStage, netFlowStage, hra, hrw]
  · have hlt := not_le.mp hle
    have hra : modeRouter cfg s a lvl t .ON_GRID =
        { inverterDrawFromBattery := 0, gridActive := true
          gridExport := 0
          gridImport := a - solarInput cfg s t * cfg.inverterEfficiency
          gridChargingPower := 0 } := by
      simp only [modeRouter]
      rw [if_neg hle]
    have hrw : WebUI.route cfg s a lvl t .ON_GRID =
        { inverterDrawFromBattery := 0, gridActive := true
          gridExport := 0
          gridImport := a - solarInput cfg s t * cfg.inverterEfficiency } := by
      simp only [WebUI.route]
      rw [if_neg hle]
    refine ⟨rfl, ?_, ?_, ?_, rfl, rfl, rfl, rfl, ?_⟩
    · rw [webui_gridImport_eq, hrw, state_gridImport, on_grid_chain_gridImport,
        on_grid_chain_gridExport, hra]
      dsimp only
      rw [gridNetting_zero_right]
    · rw [webui_gridExport_eq, hrw, state_gridExport, on_grid_chain_gridImport,
        on_grid_chain_gridExport, hra]
      dsimp only
      rw [gridNetting_zero_right]
    · rw [webui_gridActive_eq, hrw, state_gridActive, on_grid_chain_gridActive, hra]
    · simp [WebUI.calculateSystemState, calculateSystemState, WebUI.chargeSplit,
        controllerStage, netFlowStage, hra, hrw]

end SolarSim
